import Mathlib

/-!
# A shallow embedding of the `cancer_data` processing pipeline

This file embeds the two Python source files of the repository:

* `cancer_data/process.py` — the dependency-checked runner (`__main__`),
  `check_dependencies`, `parentheses_to_snake`, and the transform catalog
  (class `Processors`), of which `avana` and `ccle_rppa` are embedded;
* `cancer_data/processors/depmap.py` — the DepMap transforms, of which
  `avana`, `drive`, `depmap_mutations`, `depmap_damaging` and
  `depmap_hotspot` are embedded.

Helper modules that are not part of the source tree (`utils.export_hdf`,
`utils.file_exists`, `access.Datasets.load`) are modelled from the spec's
storage-accessor contract: a per-dataset store keyed by dataset id with an
existence check, a load-by-id, and a write used by the transforms.

Python strings are modelled as Lean `String`s, but the string algorithms
(`str.split`, slicing, `int()` parsing) are re-implemented structurally
over `List Char` so that every definition reduces inside the kernel.
-/

set_option maxHeartbeats 1000000

namespace CancerData

/-! ## String primitives (Python `str` operations) -/

/-- Python `s.split(sep)` for a one-character separator: all parts between
occurrences of `sep`, empty parts kept, so `"".split(",") == [""]`. -/
def splitOnChar (sep : Char) : List Char → List (List Char)
  | [] => [[]]
  | c :: cs =>
      if c = sep then [] :: splitOnChar sep cs
      else
        match splitOnChar sep cs with
        | h :: t => (c :: h) :: t
        | [] => [[c]]

/-- Python `s.split(" (")`: split on non-overlapping occurrences of the
two-character separator `" ("`, scanning left to right. -/
def splitSpaceParen (acc : List Char) : List Char → List (List Char)
  | [] => [acc.reverse]
  | [c] => [(c :: acc).reverse]
  | c1 :: c2 :: cs =>
      if c1 = ' ' && c2 = '(' then acc.reverse :: splitSpaceParen [] cs
      else splitSpaceParen (c1 :: acc) (c2 :: cs)

/-- The whitespace characters Python's `int()` strips. -/
def isPySpace (c : Char) : Bool :=
  c = ' ' || c = '\t' || c = '\n' || c = '\r'

/-- Python `s.strip()` restricted to the usual whitespace. -/
def trimChars (l : List Char) : List Char :=
  ((l.dropWhile isPySpace).reverse.dropWhile isPySpace).reverse

/-- Python's `map(f, xs)` for a fallible `f`, as forcing the map object
surfaces the first exception: all results, or the first failure. -/
def mapOption (f : α → Option β) : List α → Option (List β)
  | [] => some []
  | a :: as =>
      match f a, mapOption f as with
      | some b, some bs => some (b :: bs)
      | _, _ => none

/-- `parentheses_to_snake` (`process.py` lines 28-30, duplicated in
`utils.py`): `x.split(" (")`, then `parts[0] + "_" + parts[1][:-1]`.
Python raises an `IndexError` when the separator is absent (fewer than two
parts); that failure is modelled as `none`. Later parts, if any, are
ignored, exactly as the Python indexing does. -/
def parentheses_to_snake (x : String) : Option String :=
  match splitSpaceParen [] x.data with
  | p0 :: p1 :: _ => some (String.mk (p0 ++ '_' :: p1.dropLast))
  | _ => none

/-! ## The processed-table store

`utils.export_hdf`, `utils.file_exists` and `access.Datasets` are code of
the repository that is not under `src/`. Modelled from the spec: the
storage accessor is a directory of per-dataset artifacts addressed by
dataset id, with `exists(id) -> bool` and `load(id) -> Table`; writes
happen only through the transforms' export step. -/

/-- The on-disk processed store, keyed by dataset id (`PROCESSED_DIR/id.h5`);
a write prepends, and lookup finds the most recent write. -/
abbrev Store (α : Type) := List (String × α)

/-- Modelled from the spec: `exists(id)` of the storage accessor, i.e.
`file_exists(f"{PROCESSED_DIR}/{id}.h5")`. -/
def file_exists_in (store : Store α) (id : String) : Bool :=
  (store.lookup id).isSome

/-! ## `check_dependencies` and the runner (`process.py`) -/

/-- The loop body of `check_dependencies` (`process.py` lines 21-25): for
each declared dependency id `d`, assert that `PROCESSED_DIR/d.h5` exists;
the first missing one raises `AssertionError` with the message
`f"Dependency {d} does not exist."`, modelled as `Except.error`. -/
def checkDepList (store : Store α) : List String → Except String Unit
  | [] => Except.ok ()
  | d :: ds =>
      if file_exists_in store d then checkDepList store ds
      else Except.error ("Dependency " ++ d ++ " does not exist.")

/-- `check_dependencies` (`process.py` lines 16-25). The Python guard
`dependencies is None or dependencies != dependencies` is the usual
None-or-NaN test (a schema cell with no entry is NaN); both are modelled
as `none`. Otherwise the comma-separated string is split and each id is
asserted to exist. Note `"".split(",") == [""]`, so an empty string is a
single empty-named dependency, not an empty list. -/
def check_dependencies (store : Store α) (dependencies : Option String) :
    Except String Unit :=
  match dependencies with
  | none => Except.ok ()
  | some s => checkDepList store ((splitOnChar ',' s.data).map String.mk)

/-- The first declared dependency id whose artifact is absent, if any. -/
def firstMissing (store : Store α) : List String → Option String
  | [] => none
  | d :: ds => if file_exists_in store d then firstMissing store ds else some d

/-- One row of the schema table (`SCHEMA`), as the runner reads it:
dataset id, type, downloaded file name, and the optional comma-separated
dependency list (an absent cell, Python `None`/NaN, is `none`). -/
structure Descriptor where
  id : String
  type : String
  downloaded_name : String
  dependencies : Option String
deriving DecidableEq

/-- `file["type"] in ["primary_dataset", "secondary_dataset"]`
(`process.py` line 471). -/
def materializable (f : Descriptor) : Bool :=
  f.type == "primary_dataset" || f.type == "secondary_dataset"

/-- The runner's environment: the raw download directory and the transform
catalog. `catalog id` models `getattr(Processors, id, None)`. Every
`process.py` handler takes `(raw_path, output_id)`, may read already
processed tables from the store, and calls `export_hdf(output_id, df)`
exactly once; `h store raw_path output_id` is the table that call files
under `output_id`. -/
structure RunEnv (α : Type) where
  download_dir : String
  catalog : String → Option (Store α → String → String → α)

/-- A record of one transform invocation: the id looked up in the catalog,
the raw-path argument and the output-id argument it was called with. -/
abbrev CallEvent := String × String × String

/-- The body of the `__main__` loop of `process.py` (lines 469-491) for one
schema row: non-materializable types are ignored; an existing artifact
means skip; otherwise the handler is resolved by `getattr` first and a
missing handler skips silently; only then `check_dependencies` runs, and
only after it passes is the handler invoked with
`f"{DOWNLOAD_DIR}/{file['downloaded_name']}"` and `file["id"]`, its
exported table landing in the store under the output id. The returned
list records the transform invocations made. -/
def process_descriptor (env : RunEnv α) (store : Store α) (f : Descriptor) :
    Except String (Store α) × List CallEvent :=
  if materializable f then
    if file_exists_in store f.id then (Except.ok store, [])
    else
      match env.catalog f.id with
      | none => (Except.ok store, [])
      | some h =>
          match check_dependencies store f.dependencies with
          | Except.error e => (Except.error e, [])
          | Except.ok () =>
              (Except.ok ((f.id, h store (env.download_dir ++ "/" ++ f.downloaded_name) f.id) :: store),
                [(f.id, env.download_dir ++ "/" ++ f.downloaded_name, f.id)])
  else (Except.ok store, [])

/-- The full `__main__` loop over the schema rows, threading the store; an
assertion failure aborts the rest of the run, keeping the invocations made
so far. -/
def run_schema (env : RunEnv α) (store : Store α) :
    List Descriptor → Except String (Store α) × List CallEvent
  | [] => (Except.ok store, [])
  | f :: fs =>
      match process_descriptor env store f with
      | (Except.error e, cs) => (Except.error e, cs)
      | (Except.ok s', cs) =>
          let rc := run_schema env s' fs
          (rc.1, cs ++ rc.2)

/-! ## Labelled tables and identifier remapping -/

/-- A labelled 2D table as `pandas.read_csv(..., index_col=0)` produces it:
row index, column labels, and a row-major grid of values. -/
structure Frame (α : Type) where
  index : List String
  columns : List String
  values : List (List α)
deriving DecidableEq

/-- A table whose axis labels went through `dict.get`, so a label may be
the Python `None` sentinel. -/
structure OptFrame (α : Type) where
  index : List (Option String)
  columns : List (Option String)
  values : List (List α)
deriving DecidableEq

/-- `dict(zip(keys, vals)).get(k)`: a Python dict keeps the last binding
of a duplicated key, and `.get` returns `None` on a missing key. -/
def dictGet (m : List (String × String)) (k : String) : Option String :=
  m.reverse.lookup k

/-- `Processors.ccle_rppa` (`process.py` lines 131-148), parametrised by
the parsed raw table and by the two `(source column, target column)` zips
its lookup dicts are built from (`Antibody_Name -> format_id` out of
`ccle_rppa_info`, `CCLE_ID -> depMapID` out of `ccle_annotations`). Column
labels go through `antibody_name_map.get`, row labels through
`ccle_to_depmap.get`; the payload is untouched. -/
def ccle_rppa (antibody_name_map ccle_to_depmap : List (String × String))
    (df : Frame α) : OptFrame α :=
  { columns := df.columns.map (dictGet antibody_name_map)
    index := df.index.map (dictGet ccle_to_depmap)
    values := df.values }

/-- Python `str(x)` on an optional label, as `Index.astype(str)` applies it
elementwise: the `None` sentinel becomes the string `"None"`. -/
def pyStr : Option String → String
  | none => "None"
  | some s => s

/-- `Processors.drive` (`processors/depmap.py` lines 74-104, duplicated in
`process.py` lines 382-400), parametrised by the parsed raw table, the
`CCLE_Name -> depMapID` zip from the loaded `depmap_annotations`
dependency, and the `np.float16` downcast (floating point stays abstract
as a cast function). Columns go through `ccle_to_depmap.get` (a missing
key gives the `None` sentinel), the index through `parentheses_to_snake`
(whose `IndexError` propagates as `none`); both axes are then stringified
by `astype(str)` (the index entries are already strings); finally the
table is transposed and downcast. -/
def drive (ccle_to_depmap : List (String × String)) (cast : α → β)
    (df : Frame α) : Option (Frame β) :=
  match mapOption parentheses_to_snake df.index with
  | none => none
  | some idx1 =>
      some { index := (df.columns.map (dictGet ccle_to_depmap)).map pyStr
             columns := idx1
             values := df.values.transpose.map (fun row => row.map cast) }

/-! ## The two `avana` transforms (`process.py` vs `processors/depmap.py`)

Both read the same raw file with the same `pd.read_csv(raw_path,
index_col=0)` call, so both are parametrised by the same parsed table. -/

namespace ProcessPy

/-- `Processors.avana` as written in `process.py` (lines 372-380): rename
the columns with `parentheses_to_snake`, downcast the values, and hand the
result to `export_hdf(output_id, df)`, which files it in the store under
the output id. -/
def avana (cast : α → β) (df : Frame α) (output_id : String)
    (store : Store (Frame β)) : Option (Store (Frame β)) :=
  match mapOption parentheses_to_snake df.columns with
  | none => none
  | some cols =>
      some ((output_id,
        { index := df.index
          columns := cols
          values := df.values.map (fun row => row.map cast) }) :: store)

end ProcessPy

namespace DepmapPy

/-- `Processors.avana` as written in `processors/depmap.py` (lines 50-71):
the identical renaming and downcast, returning the table. -/
def avana (cast : α → β) (df : Frame α) : Option (Frame β) :=
  match mapOption parentheses_to_snake df.columns with
  | none => none
  | some cols =>
      some { index := df.index
             columns := cols
             values := df.values.map (fun row => row.map cast) }

end DepmapPy

/-! ## `depmap_mutations` (`processors/depmap.py` lines 161-183) -/

/-- A cell of the mutation table: the columns we model are read by
`pandas` as either strings or integers. -/
inductive Cell
  | str : String → Cell
  | int : Int → Cell
deriving DecidableEq

/-- Python `str(x)` on a cell, as `DataFrame.astype(str)` applies it. -/
def cellStr : Cell → String
  | Cell.str s => s
  | Cell.int n => toString n

/-- The cell holds an integer value. -/
def Cell.isInt : Cell → Bool
  | Cell.int _ => true
  | _ => false

/-- The cell holds a string value. -/
def Cell.isStr : Cell → Bool
  | Cell.str _ => true
  | _ => false

/-- Python `int(s)` as `Series.astype(int)` applies it elementwise:
surrounding whitespace stripped, an optional sign, then decimal digits
only — so `int("3.5")` raises, modelled as `none`. (Digit-group
underscores, which `str()` never produces, are not modelled.) -/
def parsePyInt (s : String) : Option Int :=
  match trimChars s.data with
  | '-' :: ds =>
      if !ds.isEmpty && ds.all Char.isDigit then
        some (-(Int.ofNat (ds.foldl (fun acc c => acc * 10 + (c.toNat - 48)) 0)))
      else none
  | '+' :: ds =>
      if !ds.isEmpty && ds.all Char.isDigit then
        some (Int.ofNat (ds.foldl (fun acc c => acc * 10 + (c.toNat - 48)) 0))
      else none
  | ds =>
      if !ds.isEmpty && ds.all Char.isDigit then
        some (Int.ofNat (ds.foldl (fun acc c => acc * 10 + (c.toNat - 48)) 0))
      else none

/-- `astype(int)` on one cell. -/
def cellToInt : Cell → Option Int
  | Cell.str s => parsePyInt s
  | Cell.int n => some n

/-- `astype(int)` on a column, failing if any cell fails. -/
def intCastCol : List Cell → Option (List Cell)
  | [] => some []
  | c :: cs =>
      match cellToInt c, intCastCol cs with
      | some n, some rest => some (Cell.int n :: rest)
      | _, _ => none

/-- A column-labelled table: a `pandas` `DataFrame` as a list of named
columns. (A `read_csv` header never repeats a name — duplicates are
mangled — so column names are unique.) -/
abbrev ColFrame := List (String × List Cell)

/-- `df[name] = df[name].astype(int)`: look the column up (a missing
column is a `KeyError`, modelled as `none`), integer-cast it, and write it
back in place. -/
def setIntColumn (df : ColFrame) (name : String) : Option ColFrame :=
  match df.lookup name with
  | none => none
  | some col =>
      match intCastCol col with
      | none => none
      | some ints =>
          some (df.map (fun p => if p.1 = name then (p.1, ints) else p))

/-- `Processors.depmap_mutations` (`processors/depmap.py` lines 161-183),
parametrised by the parsed raw table: `df.astype(str)` coerces every cell
to a string, then `Start_position` and `End_position` are cast back to
integers. -/
def depmap_mutations (df : ColFrame) : Option ColFrame :=
  let dfStr := df.map (fun p => (p.1, p.2.map (fun c => Cell.str (cellStr c))))
  match setIntColumn dfStr "Start_position" with
  | none => none
  | some df1 => setIntColumn df1 "End_position"

/-! ## The mutation matrices (`processors/depmap.py` lines 186-255)

Both transforms start from `Datasets.load("depmap_mutations")`, the
processed table written by `depmap_mutations` above; they are parametrised
by its rows. Since `depmap_mutations` stringifies every column it does
not cast back to `int`, the `Variant_annotation` column and the two
hotspot flags hold strings. -/

/-- `MIN_COUNT_CUTOFF` (`processors/depmap.py` line 12). -/
def MIN_COUNT_CUTOFF : Nat := 4

/-- One row of the loaded `depmap_mutations` table, restricted to the
columns the matrix transforms read. -/
structure MutRow where
  Hugo_Symbol : String
  DepMap_ID : String
  Variant_annotation : String
  isCOSMIChotspot : String
  isTCGAhotspot : String
deriving DecidableEq

/-- `Counter(df["Hugo_Symbol"])[g]`: occurrences of gene `g` among rows. -/
def countOcc (g : String) (rows : List MutRow) : Nat :=
  (rows.filter (fun r => r.Hugo_Symbol == g)).length

/-- `df[df["Variant_annotation"] == "damaging"]` (line 199). -/
def damagingRows (rows : List MutRow) : List MutRow :=
  rows.filter (fun r => r.Variant_annotation == "damaging")

/-- Python `series == True` where the series holds the strings of the
processed table: a Python `str` is never `==` a bool, so every element of
the mask `df["isCOSMIChotspot"] == True` is `False`. -/
def pyEqTrue (_ : String) : Bool := false

/-- `df[(df["isCOSMIChotspot"] == True) | (df["isTCGAhotspot"] == True)]`
(line 235), over the string-typed processed table. -/
def hotspotRows (rows : List MutRow) : List MutRow :=
  rows.filter (fun r => pyEqTrue r.isCOSMIChotspot || pyEqTrue r.isTCGAhotspot)

/-- The count filter shared by both transforms (lines 202-204 / 238-240):
the `Counter` is built from the already category-filtered rows, and rows
whose gene occurs fewer than `MIN_COUNT_CUTOFF` times **in those same
rows** are dropped. -/
def countFiltered (rows : List MutRow) : List MutRow :=
  rows.filter (fun r => decide (MIN_COUNT_CUTOFF ≤ countOcc r.Hugo_Symbol rows))

/-- `df["id"] = df["Hugo_Symbol"] + "_" + df["DepMap_ID"]` (line 207). -/
def rowId (r : MutRow) : String := r.Hugo_Symbol ++ "_" ++ r.DepMap_ID

/-- `drop_duplicates(..., keep="first")` body: keep each row whose key was
not seen on an earlier row. -/
def dedupByAux {κ : Type} [BEq κ] (key : MutRow → κ) (seen : List κ) :
    List MutRow → List MutRow
  | [] => []
  | r :: rs =>
      if seen.contains (key r) then dedupByAux key seen rs
      else r :: dedupByAux key (key r :: seen) rs

/-- `drop_duplicates(subset=[...], keep="first")`: keep the first
occurrence of each key. -/
def dedupBy {κ : Type} [BEq κ] (key : MutRow → κ) (rows : List MutRow) :
    List MutRow :=
  dedupByAux key [] rows

/-- First-seen de-duplication of a label list. (`pivot_table` additionally
sorts its axes lexicographically; the axis ordering plays no role in any
stated property, which concern membership and cell values only.) -/
def uniqueFirstAux (seen : List String) : List String → List String
  | [] => []
  | x :: xs =>
      if seen.contains x then uniqueFirstAux seen xs
      else x :: uniqueFirstAux (x :: seen) xs

/-- The distinct labels of a list, first occurrences first. -/
def uniqueFirst (l : List String) : List String :=
  uniqueFirstAux [] l

/-- The boolean mutation matrix: samples (index) by genes (columns). -/
structure MutMatrix where
  index : List String
  columns : List String
  values : List (List Bool)
deriving DecidableEq

/-- The pivoted cell at (sample `s`, gene `g`): `pivot_table` averages the
dummy `1` of the rows matching `(s, g)` and fills missing pairs with `0`,
and `astype(bool)` turns that into "some row carries `(s, g)`". -/
def mutPresent (rows : List MutRow) (s g : String) : Bool :=
  rows.any (fun r => r.DepMap_ID == s && r.Hugo_Symbol == g)

/-- `pd.pivot_table(df, values="value", index=["DepMap_ID"],
columns="Hugo_Symbol", fill_value=0)` followed by `astype(bool)`
(lines 210-217). -/
def pivotMut (rows : List MutRow) : MutMatrix :=
  { index := uniqueFirst (rows.map (fun r => r.DepMap_ID))
    columns := uniqueFirst (rows.map (fun r => r.Hugo_Symbol))
    values :=
      (uniqueFirst (rows.map (fun r => r.DepMap_ID))).map (fun s =>
        (uniqueFirst (rows.map (fun r => r.Hugo_Symbol))).map (fun g =>
          mutPresent rows s g)) }

/-- `Processors.depmap_damaging` (`processors/depmap.py` lines 186-219),
parametrised by the loaded `depmap_mutations` table. -/
def depmap_damaging (mutations : List MutRow) : MutMatrix :=
  pivotMut (dedupBy rowId (countFiltered (damagingRows mutations)))

/-- `Processors.depmap_hotspot` (`processors/depmap.py` lines 222-255). -/
def depmap_hotspot (mutations : List MutRow) : MutMatrix :=
  pivotMut (dedupBy rowId (countFiltered (hotspotRows mutations)))

/-- Modelled from the spec: the damaging-matrix transform as claim C1
words it, with the per-gene frequency counted across the **full
unfiltered** mutation table instead of across the category-filtered
rows. Kept only to compare against `depmap_damaging`. -/
def depmap_damaging_specCount (mutations : List MutRow) : MutMatrix :=
  pivotMut (dedupBy rowId
    ((damagingRows mutations).filter
      (fun r => decide (MIN_COUNT_CUTOFF ≤ countOcc r.Hugo_Symbol mutations))))

/-- Modelled from the spec: de-duplication by the (gene, sample) **pair**,
as claim C7 words it, instead of by the concatenated id string. Kept only
to compare against `dedupBy rowId`. -/
def dedupPairs (rows : List MutRow) : List MutRow :=
  dedupBy (fun r => (r.Hugo_Symbol, r.DepMap_ID)) rows

/-! ## Concrete runner fixtures (tables are plain strings) -/

/-- A catalog implementing only `avana`, whose handler exports a fixed
table. -/
def avanaOnly : RunEnv String :=
  ⟨"downloads", fun i => if i = "avana" then some (fun _ _ _ => "avana_table") else none⟩

/-- The attribute names of class `Processors` in `process.py` (its
transform methods, lines 37-464, in source order).  Notably absent:
`depmap_mutations`, `depmap_damaging`, `depmap_hotspot`,
`depmap_copy_number` and `prism_secondary_logfold` — `process.py` stops at
`# TODO: DepMap mutations` (line 431).  Python's inherited dunder
attributes are omitted, since no schema id names one. -/
def processPyAttrs : List String :=
  ["g19_7_definitions", "ensembl_75_definitions", "gtex_2919_manifest",
   "gtex_5214_manifest", "gtex_manifest", "gtex_gene_tpm",
   "ccle_annotations", "ccle_translocations_svaba", "ccle_rppa_info",
   "ccle_rppa", "ccle_gene_tpm", "ccle_transcript_tpm", "ccle_mirna",
   "ccle_rrbs_tss1kb", "ccle_rrbs_tss_clusters", "ccle_rrbs_cgi_clusters",
   "ccle_rrbs_enhancer_clusters", "ccle_tertp", "ccle_msi",
   "ccle_metabolomics", "depmap_annotations", "avana", "drive", "achilles",
   "depmap_gene_tpm", "prism_primary_info", "prism_primary_logfold",
   "prism_secondary_info"]

/-- `getattr(Processors, id, None)` over the real `process.py` catalog:
an id resolves exactly when `process.py` defines a transform of that name.
The handlers' table outputs are abstracted to a fixed dummy table — the
claims settled on this environment concern only which ids resolve and how
the runner sequences the dependency check. -/
def processPyEnv : RunEnv String :=
  ⟨"downloads", fun i =>
    if processPyAttrs.contains i then some (fun _ _ _ => "processed_table")
    else none⟩

/-! ## Concrete mutation-table fixtures -/

/-- Gene `B` occurs three times, all damaging: below the cutoff. -/
def mutsB : List MutRow :=
  [⟨"B", "ACH-000001", "damaging", "False", "False"⟩,
   ⟨"B", "ACH-000002", "damaging", "False", "False"⟩,
   ⟨"B", "ACH-000003", "damaging", "False", "False"⟩]

/-- Gene `A` occurs five times in the full mutation table but only three
times among the damaging rows. -/
def mutsA5 : List MutRow :=
  [⟨"A", "ACH-000001", "damaging", "False", "False"⟩,
   ⟨"A", "ACH-000002", "damaging", "False", "False"⟩,
   ⟨"A", "ACH-000003", "damaging", "False", "False"⟩,
   ⟨"A", "ACH-000004", "silent", "False", "False"⟩,
   ⟨"A", "ACH-000005", "missense", "False", "False"⟩]

/-- `TP53` damaged in four samples, with a duplicated (gene, sample) row. -/
def mutsDup : List MutRow :=
  [⟨"TP53", "ACH-1", "damaging", "False", "False"⟩,
   ⟨"TP53", "ACH-1", "damaging", "False", "False"⟩,
   ⟨"TP53", "ACH-2", "damaging", "False", "False"⟩,
   ⟨"TP53", "ACH-3", "damaging", "False", "False"⟩,
   ⟨"TP53", "ACH-4", "damaging", "False", "False"⟩]

/-- Distinct (gene, sample) pairs `("A_B", "C")` and `("A", "B_C")` share
the concatenated id `"A_B_C"`; both genes clear the count cutoff. -/
def mutsCollide : List MutRow :=
  [⟨"A_B", "C", "damaging", "False", "False"⟩,
   ⟨"A", "B_C", "damaging", "False", "False"⟩,
   ⟨"A_B", "C2", "damaging", "False", "False"⟩,
   ⟨"A_B", "C3", "damaging", "False", "False"⟩,
   ⟨"A_B", "C4", "damaging", "False", "False"⟩,
   ⟨"A", "D2", "damaging", "False", "False"⟩,
   ⟨"A", "D3", "damaging", "False", "False"⟩,
   ⟨"A", "D4", "damaging", "False", "False"⟩]

/-! ## Lemmas about the store and the runner -/

theorem file_exists_in_cons_self (t : α) (k : String) (store : Store α) :
    file_exists_in ((k, t) :: store) k = true := by
  simp [file_exists_in, List.lookup]

theorem file_exists_in_cons (t : α) (k i : String) (store : Store α)
    (h : file_exists_in store i = true) :
    file_exists_in ((k, t) :: store) i = true := by
  cases hik : i == k with
  | true => simp [file_exists_in, List.lookup, hik]
  | false => simpa [file_exists_in, List.lookup, hik] using h

/-- A materializable descriptor with an existing artifact is skipped with
no invocation and no store change. -/
theorem step_skip_exists (env : RunEnv α) (store : Store α) (f : Descriptor)
    (hm : materializable f = true) (he : file_exists_in store f.id = true) :
    process_descriptor env store f = (Except.ok store, []) := by
  simp [process_descriptor, hm, he]

/-- A non-materializable descriptor is ignored. -/
theorem step_skip_nonmat (env : RunEnv α) (store : Store α) (f : Descriptor)
    (hm : materializable f = false) :
    process_descriptor env store f = (Except.ok store, []) := by
  simp [process_descriptor, hm]

/-- A descriptor whose id has no attribute on `Processors` is skipped
silently, dependencies unchecked. -/
theorem step_skip_nocat (env : RunEnv α) (store : Store α) (f : Descriptor)
    (hm : materializable f = true) (he : file_exists_in store f.id = false)
    (hc : env.catalog f.id = none) :
    process_descriptor env store f = (Except.ok store, []) := by
  simp [process_descriptor, hm, he, hc]

/-- A successful step never loses an existing artifact. -/
theorem step_preserves_exists (env : RunEnv α) (store s' : Store α)
    (f : Descriptor) (cs : List CallEvent) (i : String)
    (h : process_descriptor env store f = (Except.ok s', cs))
    (hi : file_exists_in store i = true) :
    file_exists_in s' i = true := by
  unfold process_descriptor at h
  split at h
  · split at h
    · cases h
      exact hi
    · split at h
      · cases h
        exact hi
      · split at h
        · cases h
        · cases h
          exact file_exists_in_cons _ _ _ _ hi
  · cases h
    exact hi

/-- A successful run never loses an existing artifact. -/
theorem run_preserves_exists (env : RunEnv α) (i : String) :
    ∀ (fs : List Descriptor) (store s₁ : Store α) (cs : List CallEvent),
      run_schema env store fs = (Except.ok s₁, cs) →
      file_exists_in store i = true → file_exists_in s₁ i = true := by
  intro fs
  induction fs with
  | nil =>
      intro store s₁ cs h hi
      cases h
      exact hi
  | cons f fs ih =>
      intro store s₁ cs h hi
      rw [run_schema] at h
      rcases hp : process_descriptor env store f with ⟨r, cs0⟩
      rw [hp] at h
      cases r with
      | error e => cases h
      | ok s' =>
          simp only at h
          rcases hr : run_schema env s' fs with ⟨r1, cs1⟩
          rw [hr] at h
          cases h
          exact ih s' s₁ cs1 hr (step_preserves_exists env store s' f cs0 i hp hi)

/-- A successful step on a materializable descriptor with an implemented
transform leaves its artifact existing. -/
theorem step_creates_exists (env : RunEnv α) (store s' : Store α)
    (f : Descriptor) (cs : List CallEvent)
    (h : process_descriptor env store f = (Except.ok s', cs))
    (hm : materializable f = true) (hc : (env.catalog f.id).isSome = true) :
    file_exists_in s' f.id = true := by
  unfold process_descriptor at h
  rw [if_pos hm] at h
  split at h
  · cases h
    assumption
  · split at h
    · rename_i hcat
      rw [hcat] at hc
      cases hc
    · split at h
      · cases h
      · cases h
        exact file_exists_in_cons_self _ _ _

/-- After a successful run, every materializable descriptor with an
implemented transform has its artifact on disk. -/
theorem run_post_exists (env : RunEnv α) :
    ∀ (fs : List Descriptor) (store s₁ : Store α) (cs : List CallEvent),
      run_schema env store fs = (Except.ok s₁, cs) →
      ∀ f ∈ fs, materializable f = true → (env.catalog f.id).isSome = true →
        file_exists_in s₁ f.id = true := by
  intro fs
  induction fs with
  | nil =>
      intro store s₁ cs _ f hf
      cases hf
  | cons g fs ih =>
      intro store s₁ cs h f hf hm hc
      rw [run_schema] at h
      rcases hp : process_descriptor env store g with ⟨r, cs0⟩
      rw [hp] at h
      cases r with
      | error e => cases h
      | ok s' =>
          simp only at h
          rcases hr : run_schema env s' fs with ⟨r1, cs1⟩
          rw [hr] at h
          cases h
          rcases List.mem_cons.mp hf with hfg | hftail
          · subst hfg
            exact run_preserves_exists env f.id fs s' s₁ cs1 hr
              (step_creates_exists env store s' f cs0 hp hm hc)
          · exact ih s' s₁ cs1 hr f hftail hm hc

/-- A run over a schema whose every materializable, implemented descriptor
already has its artifact does nothing at all. -/
theorem run_all_processed (env : RunEnv α) :
    ∀ (fs : List Descriptor) (store : Store α),
      (∀ f ∈ fs, materializable f = true → (env.catalog f.id).isSome = true →
        file_exists_in store f.id = true) →
      run_schema env store fs = (Except.ok store, []) := by
  intro fs
  induction fs with
  | nil =>
      intro store _
      rfl
  | cons f fs ih =>
      intro store hall
      have hstep : process_descriptor env store f = (Except.ok store, []) := by
        cases hm : materializable f with
        | false => exact step_skip_nonmat env store f hm
        | true =>
            cases he : file_exists_in store f.id with
            | true => exact step_skip_exists env store f hm he
            | false =>
                cases hc : env.catalog f.id with
                | none => exact step_skip_nocat env store f hm he hc
                | some h0 =>
                    have := hall f (List.mem_cons_self f fs) hm (by rw [hc]; rfl)
                    rw [this] at he
                    cases he
      have htail := ih store (fun g hg => hall g (List.mem_cons_of_mem f hg))
      rw [run_schema, hstep]
      simp only [htail]
      rfl

/-! ## Lemmas about the dependency check -/

theorem firstMissing_spec (store : Store α) :
    ∀ (ds : List String) (d : String), firstMissing store ds = some d →
      d ∈ ds ∧ file_exists_in store d = false := by
  intro ds
  induction ds with
  | nil =>
      intro d h
      cases h
  | cons e ds ih =>
      intro d h
      rw [firstMissing] at h
      split at h
      · rcases ih d h with ⟨h1, h2⟩
        exact ⟨List.mem_cons_of_mem e h1, h2⟩
      · cases h
        rename_i hne
        exact ⟨List.mem_cons_self e ds, Bool.eq_false_iff.mpr hne⟩

theorem checkDepList_error (store : Store α) :
    ∀ (ds : List String) (d : String), firstMissing store ds = some d →
      checkDepList store ds = Except.error ("Dependency " ++ d ++ " does not exist.") := by
  intro ds
  induction ds with
  | nil =>
      intro d h
      cases h
  | cons e ds ih =>
      intro d h
      rw [firstMissing] at h
      rw [checkDepList]
      split at h
      · rename_i he
        rw [if_pos he]
        exact ih d h
      · rename_i he
        cases h
        rw [if_neg he]

theorem firstMissing_of_missing (store : Store α) :
    ∀ (ds : List String) (d : String), d ∈ ds →
      file_exists_in store d = false → (firstMissing store ds).isSome = true := by
  intro ds
  induction ds with
  | nil =>
      intro d h
      cases h
  | cons e ds ih =>
      intro d hd hmiss
      rw [firstMissing]
      split
      · rename_i he
        rcases List.mem_cons.mp hd with rfl | htail
        · rw [he] at hmiss
          cases hmiss
        · exact ih d htail hmiss
      · rfl

/-! ## Claims C2-C6: the dependency-checked runner -/

/-- C2 (counterexample): the descriptor `depmap_mutations` is
materializable, its artifact is absent and its declared dependency
`depmap_annotations` does not exist on disk, yet the runner completes
without raising any assertion failure: `process.py` implements no
`depmap_mutations` transform (its `Processors` class stops at the
`# TODO: DepMap mutations` comment), so `getattr` returns `None` and the
descriptor is skipped before `check_dependencies` ever runs —
contradicting the claim that every such descriptor raises. -/
theorem c2_counterexample :
    materializable ⟨"depmap_mutations", "primary_dataset",
      "depmap_mutations.tsv", some "depmap_annotations"⟩ = true ∧
    file_exists_in ([] : Store String) "depmap_mutations" = false ∧
    file_exists_in ([] : Store String) "depmap_annotations" = false ∧
    processPyEnv.catalog "depmap_mutations" = none ∧
    run_schema processPyEnv []
      [⟨"depmap_mutations", "primary_dataset", "depmap_mutations.tsv",
        some "depmap_annotations"⟩] =
      (Except.ok [], []) :=
  ⟨rfl, rfl, rfl, rfl, rfl⟩

/-- C2 (amended): for a materializable descriptor with an absent artifact
whose id **does** resolve to a transform in the catalog and that declares
a dependency with an absent artifact, the runner raises the assertion
failure naming the offending dependency id, and the transform is never
invoked (the invocation trace is empty). -/
theorem c2_missing_dep_asserts (env : RunEnv α) (store : Store α)
    (f : Descriptor) (h0 : Store α → String → String → α) (deps : String)
    (hm : materializable f = true)
    (hne : file_exists_in store f.id = false)
    (hcat : env.catalog f.id = some h0)
    (hdeps : f.dependencies = some deps)
    (hmiss : ∃ d ∈ (splitOnChar ',' deps.data).map String.mk,
      file_exists_in store d = false) :
    ∃ d ∈ (splitOnChar ',' deps.data).map String.mk,
      file_exists_in store d = false ∧
      process_descriptor env store f =
        (Except.error ("Dependency " ++ d ++ " does not exist."), []) := by
  rcases hmiss with ⟨d0, hd0, hd0m⟩
  have hsome := firstMissing_of_missing store _ d0 hd0 hd0m
  cases hfm : firstMissing store ((splitOnChar ',' deps.data).map String.mk) with
  | none =>
      rw [hfm] at hsome
      cases hsome
  | some d =>
      rcases firstMissing_spec store _ d hfm with ⟨hdmem, hdmiss⟩
      refine ⟨d, hdmem, hdmiss, ?_⟩
      have hcdl := checkDepList_error store _ d hfm
      simp [process_descriptor, hm, hne, hcat, check_dependencies, hdeps, hcdl]

/-- C2 (witness): `ccle_rppa` — implemented at `process.py` line 131 —
declares `ccle_rppa_info,ccle_annotations`; with only `ccle_rppa_info` on
disk the runner stops with the assertion message naming
`ccle_annotations` and an empty invocation trace. -/
theorem c2_missing_dep_asserts_witness :
    ∃ d ∈ (splitOnChar ',' "ccle_rppa_info,ccle_annotations".data).map String.mk,
      file_exists_in [("ccle_rppa_info", "info_table")] d = false ∧
      process_descriptor processPyEnv [("ccle_rppa_info", "info_table")]
          ⟨"ccle_rppa", "primary_dataset", "rppa.csv", some "ccle_rppa_info,ccle_annotations"⟩ =
        (Except.error ("Dependency " ++ d ++ " does not exist."), []) :=
  c2_missing_dep_asserts processPyEnv [("ccle_rppa_info", "info_table")]
    ⟨"ccle_rppa", "primary_dataset", "rppa.csv", some "ccle_rppa_info,ccle_annotations"⟩
    (fun _ _ _ => "processed_table") "ccle_rppa_info,ccle_annotations"
    rfl rfl rfl rfl ⟨"ccle_annotations", by decide, rfl⟩

/-- C3 (counterexample): the claim says the runner fails fast on a missing
dependency regardless of whether a transform with the descriptor's id
exists; but for `depmap_hotspot` — materializable, artifact absent,
dependency `depmap_mutations` absent, and no transform in `process.py`'s
`Processors` class (it exists only in `processors/depmap.py`) — the step
succeeds silently instead of asserting. -/
theorem c3_counterexample :
    materializable ⟨"depmap_hotspot", "secondary_dataset", "",
      some "depmap_mutations"⟩ = true ∧
    file_exists_in ([] : Store String) "depmap_hotspot" = false ∧
    file_exists_in ([] : Store String) "depmap_mutations" = false ∧
    processPyEnv.catalog "depmap_hotspot" = none ∧
    process_descriptor processPyEnv []
      ⟨"depmap_hotspot", "secondary_dataset", "", some "depmap_mutations"⟩ =
      (Except.ok [], []) :=
  ⟨rfl, rfl, rfl, rfl, rfl⟩

/-- C3 (amended): the runner resolves the transform **before** the
dependency check: with no transform in the catalog the descriptor is
skipped silently, dependencies unchecked; with a transform present, a
missing dependency raises the assertion before the transform is invoked. -/
theorem c3_dispatch_before_check (env : RunEnv α) (store : Store α)
    (f : Descriptor)
    (hm : materializable f = true) (hne : file_exists_in store f.id = false) :
    (env.catalog f.id = none →
      process_descriptor env store f = (Except.ok store, [])) ∧
    (∀ (h0 : Store α → String → String → α) (deps : String) (d : String),
      env.catalog f.id = some h0 → f.dependencies = some deps →
      firstMissing store ((splitOnChar ',' deps.data).map String.mk) = some d →
      process_descriptor env store f =
        (Except.error ("Dependency " ++ d ++ " does not exist."), [])) := by
  constructor
  · intro hc
    exact step_skip_nocat env store f hm hne hc
  · intro h0 deps d hcat hdeps hfm
    have hcdl := checkDepList_error store _ d hfm
    simp [process_descriptor, hm, hne, hcat, check_dependencies, hdeps, hcdl]

/-- C3 (witness): both branches of the amended claim over the real
`process.py` catalog — `depmap_copy_number`, unimplemented there, is
skipped despite its missing dependency, while `ccle_rppa`, implemented at
line 131, aborts with the assertion on its missing dependency. -/
theorem c3_dispatch_before_check_witness :
    process_descriptor processPyEnv []
      ⟨"depmap_copy_number", "primary_dataset", "copy_number.csv",
        some "depmap_annotations"⟩ =
      (Except.ok [], []) ∧
    process_descriptor processPyEnv []
      ⟨"ccle_rppa", "primary_dataset", "rppa.csv", some "ccle_annotations"⟩ =
      (Except.error ("Dependency " ++ "ccle_annotations" ++ " does not exist."), []) :=
  ⟨(c3_dispatch_before_check processPyEnv []
      ⟨"depmap_copy_number", "primary_dataset", "copy_number.csv",
        some "depmap_annotations"⟩ rfl rfl).1 rfl,
   (c3_dispatch_before_check processPyEnv []
      ⟨"ccle_rppa", "primary_dataset", "rppa.csv", some "ccle_annotations"⟩ rfl rfl).2
      (fun _ _ _ => "processed_table") "ccle_annotations" "ccle_annotations" rfl rfl rfl⟩

/-- C4: idempotence of the runner.  A materializable descriptor whose
artifact already exists is skipped with no invocation and no write; and
after any completed run, re-running the whole schema performs no
processing (empty invocation trace) and leaves the store unchanged. -/
theorem c4_runner_idempotent (env : RunEnv α) (store s₁ : Store α)
    (fs : List Descriptor) (cs : List CallEvent)
    (h : run_schema env store fs = (Except.ok s₁, cs)) :
    (∀ f : Descriptor, materializable f = true →
      file_exists_in store f.id = true →
      process_descriptor env store f = (Except.ok store, [])) ∧
    run_schema env s₁ fs = (Except.ok s₁, []) := by
  constructor
  · intro f hm he
    exact step_skip_exists env store f hm he
  · exact run_all_processed env fs s₁
      (fun f hf hm hc => run_post_exists env fs store s₁ cs h f hf hm hc)

/-- C4 (witness): a first run over a three-row schema materializes
`avana`, skips the unimplemented `drive` (despite its missing dependency)
and ignores the non-materializable row; the second run over the resulting
store changes nothing and invokes nothing. -/
theorem c4_runner_idempotent_witness :
    run_schema avanaOnly []
      [⟨"avana", "primary_dataset", "avana.csv", none⟩,
       ⟨"drive", "primary_dataset", "drive.csv", some "depmap_annotations"⟩,
       ⟨"g19_7_definitions", "other", "gencode.gtf.gz", none⟩] =
      (Except.ok [("avana", "avana_table")], [("avana", "downloads/avana.csv", "avana")]) ∧
    run_schema avanaOnly [("avana", "avana_table")]
      [⟨"avana", "primary_dataset", "avana.csv", none⟩,
       ⟨"drive", "primary_dataset", "drive.csv", some "depmap_annotations"⟩,
       ⟨"g19_7_definitions", "other", "gencode.gtf.gz", none⟩] =
      (Except.ok [("avana", "avana_table")], []) :=
  ⟨rfl,
   (c4_runner_idempotent avanaOnly [] [("avana", "avana_table")]
      [⟨"avana", "primary_dataset", "avana.csv", none⟩,
       ⟨"drive", "primary_dataset", "drive.csv", some "depmap_annotations"⟩,
       ⟨"g19_7_definitions", "other", "gencode.gtf.gz", none⟩]
      [("avana", "downloads/avana.csv", "avana")] rfl).2⟩

/-- C5: for a materializable descriptor with an implemented transform,
absent artifact and satisfied dependencies, the runner invokes the
transform exactly once with `DOWNLOAD_DIR/downloaded_name` and the dataset
id, and the table the transform produced is persisted in the store under
the dataset id. -/
theorem c5_transform_call_persists (env : RunEnv α) (store : Store α)
    (f : Descriptor) (h0 : Store α → String → String → α)
    (hm : materializable f = true) (hne : file_exists_in store f.id = false)
    (hcat : env.catalog f.id = some h0)
    (hdep : check_dependencies store f.dependencies = Except.ok ()) :
    process_descriptor env store f =
      (Except.ok ((f.id, h0 store (env.download_dir ++ "/" ++ f.downloaded_name) f.id) :: store),
        [(f.id, env.download_dir ++ "/" ++ f.downloaded_name, f.id)]) ∧
    ((f.id, h0 store (env.download_dir ++ "/" ++ f.downloaded_name) f.id) :: store).lookup f.id =
      some (h0 store (env.download_dir ++ "/" ++ f.downloaded_name) f.id) := by
  constructor
  · simp [process_descriptor, hm, hne, hcat, hdep]
  · simp [List.lookup]

/-- C5 (witness): processing `avana` from an empty store invokes its
handler on `downloads/avana.csv` and `avana`, and the exported table is
found in the store under `avana`. -/
theorem c5_transform_call_persists_witness :
    process_descriptor avanaOnly [] ⟨"avana", "primary_dataset", "avana.csv", none⟩ =
      (Except.ok [("avana", "avana_table")], [("avana", "downloads/avana.csv", "avana")]) ∧
    ([("avana", "avana_table")] : Store String).lookup "avana" = some "avana_table" := by
  have h := c5_transform_call_persists avanaOnly []
    ⟨"avana", "primary_dataset", "avana.csv", none⟩ (fun _ _ _ => "avana_table")
    rfl rfl rfl rfl
  exact h

/-- C6: a descriptor with a missing dependency field (Python `None` or a
NaN schema cell) has no dependencies: `check_dependencies` returns at once
without any existence check — against any store — and the runner proceeds
to invoke the transform. -/
theorem c6_no_deps_no_check (env : RunEnv α) (store : Store α)
    (f : Descriptor) (h0 : Store α → String → String → α)
    (hdeps : f.dependencies = none)
    (hm : materializable f = true) (hne : file_exists_in store f.id = false)
    (hcat : env.catalog f.id = some h0) :
    check_dependencies store f.dependencies = Except.ok () ∧
    process_descriptor env store f =
      (Except.ok ((f.id, h0 store (env.download_dir ++ "/" ++ f.downloaded_name) f.id) :: store),
        [(f.id, env.download_dir ++ "/" ++ f.downloaded_name, f.id)]) := by
  refine ⟨?_, ?_⟩
  · rw [hdeps]
    rfl
  · simp [process_descriptor, hm, hne, hcat, check_dependencies, hdeps]

/-- C6 (witness): `avana` has no dependency cell; the check passes on the
empty store and the transform runs. -/
theorem c6_no_deps_no_check_witness :
    check_dependencies ([] : Store String) (none : Option String) = Except.ok () ∧
    process_descriptor avanaOnly [] ⟨"avana", "primary_dataset", "avana.csv", none⟩ =
      (Except.ok [("avana", "avana_table")], [("avana", "downloads/avana.csv", "avana")]) := by
  have h := c6_no_deps_no_check avanaOnly []
    ⟨"avana", "primary_dataset", "avana.csv", none⟩ (fun _ _ _ => "avana_table")
    rfl rfl rfl rfl
  exact h

/-! ## Claim C8: unmapped identifiers become the `None` sentinel -/

theorem lookup_eq_none_of_keys (l : List (String × String)) (k : String)
    (h : ∀ p ∈ l, p.1 ≠ k) : l.lookup k = none := by
  induction l with
  | nil => rfl
  | cons p t ih =>
      have hp : p.1 ≠ k := h p (List.mem_cons_self p t)
      have hbeq : (k == p.1) = false :=
        beq_eq_false_iff_ne.mpr (fun he => hp he.symm)
      rcases p with ⟨a, b⟩
      simp only [List.lookup, hbeq]
      exact ih (fun q hq => h q (List.mem_cons_of_mem _ hq))

/-- `dict.get` on a key absent from the dict gives the `None` sentinel. -/
theorem dictGet_eq_none (m : List (String × String)) (z : String)
    (hz : z ∉ m.map Prod.fst) : dictGet m z = none := by
  apply lookup_eq_none_of_keys
  intro p hp hpz
  exact hz (hpz ▸ List.mem_map_of_mem Prod.fst (List.mem_reverse.mp hp))

/-- C8: identifier remapping never errors on an unmapped label. For any
lookup map and any axis label absent from its keys, `dict.get` resolves
the label to the `None` sentinel (`dictGet` is total, so nothing is
raised), and the sentinel propagates into the output table's axis: in
`ccle_rppa` it appears verbatim in the relabelled index/columns, and in
`drive` its stringification `"None"` appears in the output index. -/
theorem c8_unmapped_label_sentinel (m₁ m₂ : List (String × String))
    (z : String) (df : Frame α) (cast : α → β)
    (hz₂ : z ∉ m₂.map Prod.fst) :
    dictGet m₂ z = none ∧
    (z ∈ df.index → none ∈ (ccle_rppa m₁ m₂ df).index) ∧
    (z ∉ m₁.map Prod.fst → z ∈ df.columns →
      none ∈ (ccle_rppa m₁ m₂ df).columns) ∧
    (∀ out : Frame β, drive m₂ cast df = some out → z ∈ df.columns →
      "None" ∈ out.index) := by
  have hget : dictGet m₂ z = none := dictGet_eq_none m₂ z hz₂
  refine ⟨hget, ?_, ?_, ?_⟩
  · intro hzin
    have h1 : dictGet m₂ z ∈ df.index.map (dictGet m₂) :=
      List.mem_map_of_mem _ hzin
    rw [hget] at h1
    simpa [ccle_rppa] using h1
  · intro hz₁ hzc
    have hget1 : dictGet m₁ z = none := dictGet_eq_none m₁ z hz₁
    have h1 : dictGet m₁ z ∈ df.columns.map (dictGet m₁) :=
      List.mem_map_of_mem _ hzc
    rw [hget1] at h1
    simpa [ccle_rppa] using h1
  · intro out hout hzc
    have h1 : dictGet m₂ z ∈ df.columns.map (dictGet m₂) :=
      List.mem_map_of_mem _ hzc
    have h2 : pyStr (dictGet m₂ z) ∈ (df.columns.map (dictGet m₂)).map pyStr :=
      List.mem_map_of_mem _ h1
    rw [hget] at h2
    unfold drive at hout
    cases hm : mapOption parentheses_to_snake df.index with
    | none =>
        rw [hm] at hout
        cases hout
    | some idx1 =>
        rw [hm] at hout
        cases hout
        exact h2

/-- C8 (witness): with the mapping `{x: 1, y: 2}` of the spec's example,
the unmapped label `"z"` resolves to `None`; in `ccle_rppa` the sentinel
lands in the output index, and in `drive` the output index holds the
stringified sentinel `"None"`. -/
theorem c8_unmapped_label_sentinel_witness :
    dictGet [("x", "1"), ("y", "2")] "z" = none ∧
    none ∈ (ccle_rppa [] [("x", "1"), ("y", "2")]
      (⟨["z"], ["w"], [[(3 : Int)]]⟩ : Frame Int)).index ∧
    "None" ∈ (⟨["None"], ["g_1"], [[(3 : Int)]]⟩ : Frame Int).index := by
  have hA := c8_unmapped_label_sentinel [] [("x", "1"), ("y", "2")] "z"
    (⟨["z"], ["w"], [[(3 : Int)]]⟩ : Frame Int) (id : Int → Int) (by decide)
  have hB := c8_unmapped_label_sentinel [] [("x", "1"), ("y", "2")] "z"
    (⟨["g (1)"], ["z"], [[(3 : Int)]]⟩ : Frame Int) (id : Int → Int) (by decide)
  exact ⟨hA.1, hA.2.1 (by decide),
    hB.2.2.2 ⟨["None"], ["g_1"], [[(3 : Int)]]⟩ rfl (by decide)⟩

/-! ## Claim C9: the duplicated `avana` transforms agree -/

/-- C9: for every parsed raw table (both implementations read the raw file
with the same `pd.read_csv` call) and any downcast, the table the
`process.py` `avana` hands to `export_hdf` — found in the store under the
output id — is exactly the table the `processors/depmap.py` `avana`
returns, and the two fail on exactly the same inputs. -/
theorem c9_avana_duplicates_agree (cast : α → β) (df : Frame α)
    (output_id : String) (store : Store (Frame β)) :
    (∀ s' : Store (Frame β), ProcessPy.avana cast df output_id store = some s' →
      s'.lookup output_id = DepmapPy.avana cast df) ∧
    (ProcessPy.avana cast df output_id store = none ↔
      DepmapPy.avana cast df = none) := by
  cases hc : mapOption parentheses_to_snake df.columns with
  | none => simp [ProcessPy.avana, DepmapPy.avana, hc]
  | some cols => simp [ProcessPy.avana, DepmapPy.avana, hc, List.lookup]

/-- C9 (witness): on a one-cell Avana table the store entry written by the
`process.py` version equals the table returned by the `depmap.py`
version. -/
theorem c9_avana_duplicates_agree_witness :
    ([("avana", (⟨["ACH-000001"], ["SOX10_6663"], [[(2 : Int)]]⟩ : Frame Int))] :
        Store (Frame Int)).lookup "avana" =
      DepmapPy.avana (id : Int → Int)
        (⟨["ACH-000001"], ["SOX10 (6663)"], [[(2 : Int)]]⟩ : Frame Int) :=
  (c9_avana_duplicates_agree (id : Int → Int)
      (⟨["ACH-000001"], ["SOX10 (6663)"], [[(2 : Int)]]⟩ : Frame Int) "avana" []).1
    [("avana", ⟨["ACH-000001"], ["SOX10_6663"], [[(2 : Int)]]⟩)] rfl

/-! ## Claim C10: dtypes of the `depmap_mutations` output -/

theorem intCastCol_isInt :
    ∀ (col out : List Cell), intCastCol col = some out →
      ∀ c ∈ out, c.isInt = true := by
  intro col
  induction col with
  | nil =>
      intro out h c hc
      cases h
      cases hc
  | cons c0 cs ih =>
      intro out h c hc
      rw [intCastCol] at h
      cases h1 : cellToInt c0 with
      | none =>
          rw [h1] at h
          cases h
      | some n =>
          cases h2 : intCastCol cs with
          | none =>
              rw [h1, h2] at h
              cases h
          | some rest =>
              rw [h1, h2] at h
              cases h
              rcases List.mem_cons.mp hc with rfl | htail
              · rfl
              · exact ih rest h2 c htail

/-- What `setIntColumn` does to each column: the named column becomes all
integers, every other column is passed through unchanged. -/
theorem setIntColumn_spec (df out : ColFrame) (name : String)
    (h : setIntColumn df name = some out) :
    ∀ p ∈ out, (p.1 = name → ∀ c ∈ p.2, c.isInt = true) ∧
      (p.1 ≠ name → p ∈ df) := by
  rw [setIntColumn] at h
  split at h
  · cases h
  · rename_i col h1
    split at h
    · cases h
    · rename_i ints h2
      cases h
      intro p hp
      rcases List.mem_map.mp hp with ⟨q, hq, hpq⟩
      by_cases hqn : q.1 = name
      · rw [if_pos hqn] at hpq
        subst hpq
        refine ⟨fun _ c hc => intCastCol_isInt col ints h2 c hc, ?_⟩
        intro hne
        exact absurd hqn hne
      · rw [if_neg hqn] at hpq
        subst hpq
        exact ⟨fun hqn2 => absurd hqn2 hqn, fun _ => hq⟩

/-- Every cell of the `astype(str)` image is a string. -/
theorem strCast_isStr (df : ColFrame) :
    ∀ p ∈ df.map (fun p => (p.1, p.2.map (fun c => Cell.str (cellStr c)))),
      ∀ c ∈ p.2, c.isStr = true := by
  intro p hp c hc
  rcases List.mem_map.mp hp with ⟨q, _, rfl⟩
  rcases List.mem_map.mp hc with ⟨c0, _, rfl⟩
  rfl

/-- C10: in the table `depmap_mutations` returns, the `Start_position` and
`End_position` columns hold integer values and every other column holds
strings: all columns are first coerced to strings, then exactly those two
are cast back to integers. -/
theorem c10_mutations_dtypes (df out : ColFrame)
    (h : depmap_mutations df = some out) :
    ∀ p ∈ out,
      ((p.1 = "Start_position" ∨ p.1 = "End_position") →
        ∀ c ∈ p.2, c.isInt = true) ∧
      (p.1 ≠ "Start_position" → p.1 ≠ "End_position" →
        ∀ c ∈ p.2, c.isStr = true) := by
  rw [depmap_mutations] at h
  split at h
  · cases h
  · rename_i df1 h1
    intro p hp
    have hEnd := setIntColumn_spec df1 out "End_position" h p hp
    constructor
    · rintro (hS | hE)
      · have hp1 : p ∈ df1 := hEnd.2 (by rw [hS]; decide)
        exact (setIntColumn_spec _ df1 "Start_position" h1 p hp1).1 hS
      · exact hEnd.1 hE
    · intro hS hE
      have hp1 : p ∈ df1 := hEnd.2 hE
      have hp0 := (setIntColumn_spec _ df1 "Start_position" h1 p hp1).2 hS
      exact strCast_isStr df p hp0

/-- C10 (witness): on a three-column row the positions come out as
integers (one parsed back from its string form) and the gene symbol stays
a string. -/
theorem c10_mutations_dtypes_witness :
    depmap_mutations
      [("Hugo_Symbol", [Cell.str "TP53"]), ("Start_position", [Cell.int 5]),
       ("End_position", [Cell.str "7"])] =
      some [("Hugo_Symbol", [Cell.str "TP53"]), ("Start_position", [Cell.int 5]),
        ("End_position", [Cell.int 7])] ∧
    (∀ c ∈ [Cell.int 5], c.isInt = true) ∧
    (∀ c ∈ [Cell.str "TP53"], c.isStr = true) := by
  have h := c10_mutations_dtypes
    [("Hugo_Symbol", [Cell.str "TP53"]), ("Start_position", [Cell.int 5]),
     ("End_position", [Cell.str "7"])]
    [("Hugo_Symbol", [Cell.str "TP53"]), ("Start_position", [Cell.int 5]),
     ("End_position", [Cell.int 7])] rfl
  refine ⟨rfl, ?_, ?_⟩
  · exact (h ("Start_position", [Cell.int 5]) (by decide)).1 (Or.inl rfl)
  · exact (h ("Hugo_Symbol", [Cell.str "TP53"]) (by decide)).2 (by decide) (by decide)

/-! ## Claims C1 and C7: the mutation-matrix transforms -/

theorem mem_uniqueFirstAux :
    ∀ (l seen : List String) (x : String), x ∈ uniqueFirstAux seen l → x ∈ l := by
  intro l
  induction l with
  | nil =>
      intro seen x h
      cases h
  | cons y ys ih =>
      intro seen x h
      rw [uniqueFirstAux] at h
      split at h
      · exact List.mem_cons_of_mem y (ih seen x h)
      · rcases List.mem_cons.mp h with rfl | ht
        · exact List.mem_cons_self x ys
        · exact List.mem_cons_of_mem y (ih _ x ht)

theorem mem_dedupByAux {κ : Type} [BEq κ] (key : MutRow → κ) :
    ∀ (l : List MutRow) (seen : List κ) (r : MutRow),
      r ∈ dedupByAux key seen l → r ∈ l := by
  intro l
  induction l with
  | nil =>
      intro seen r h
      cases h
  | cons y ys ih =>
      intro seen r h
      rw [dedupByAux] at h
      split at h
      · exact List.mem_cons_of_mem y (ih seen r h)
      · rcases List.mem_cons.mp h with rfl | ht
        · exact List.mem_cons_self r ys
        · exact List.mem_cons_of_mem y (ih _ r ht)

/-- `drop_duplicates(keep="first")` keeps a representative of every key. -/
theorem dedupByAux_covers {κ : Type} [BEq κ] [LawfulBEq κ] (key : MutRow → κ) :
    ∀ (l : List MutRow) (seen : List κ) (x : MutRow), x ∈ l →
      key x ∈ seen ∨ ∃ y ∈ dedupByAux key seen l, key y = key x := by
  intro l
  induction l with
  | nil =>
      intro seen x h
      cases h
  | cons r rs ih =>
      intro seen x hx
      rw [dedupByAux]
      split
      · rename_i hseen
        rcases List.mem_cons.mp hx with rfl | ht
        · left
          exact List.elem_iff.mp hseen
        · exact ih seen x ht
      · rename_i hseen
        rcases List.mem_cons.mp hx with rfl | ht
        · right
          exact ⟨x, List.mem_cons_self _ _, rfl⟩
        · rcases ih (key r :: seen) x ht with h1 | ⟨y, hy, hky⟩
          · rcases List.mem_cons.mp h1 with heq | hs
            · right
              exact ⟨r, List.mem_cons_self _ _, heq.symm⟩
            · left
              exact hs
          · right
            exact ⟨y, List.mem_cons_of_mem _ hy, hky⟩

theorem dedupBy_covers {κ : Type} [BEq κ] [LawfulBEq κ] (key : MutRow → κ)
    (rows : List MutRow) (x : MutRow) (hx : x ∈ rows) :
    ∃ y ∈ dedupBy key rows, key y = key x := by
  rcases dedupByAux_covers key rows [] x hx with h | h
  · cases h
  · exact h

/-- A gene occurs in a filtered table at most as often as in the table. -/
theorem countOcc_filter_le (g : String) (p : MutRow → Bool) (l : List MutRow) :
    countOcc g (l.filter p) ≤ countOcc g l :=
  List.Sublist.length_le (List.Sublist.filter _ (List.filter_sublist l))

/-- A gene below the cutoff in `rows` reaches no column of the pivot built
from the count-filtered, deduplicated `rows`. -/
theorem notMem_matrix_columns (rows : List MutRow) (g : String)
    (h : countOcc g rows < MIN_COUNT_CUTOFF) :
    g ∉ (pivotMut (dedupBy rowId (countFiltered rows))).columns := by
  intro hmem
  have h2 : g ∈ (dedupBy rowId (countFiltered rows)).map
      (fun r => r.Hugo_Symbol) :=
    mem_uniqueFirstAux _ [] g hmem
  rcases List.mem_map.mp h2 with ⟨r, hr, hrg⟩
  have hr2 : r ∈ countFiltered rows := mem_dedupByAux rowId _ [] r hr
  have h4 : MIN_COUNT_CUTOFF ≤ countOcc r.Hugo_Symbol rows :=
    of_decide_eq_true (List.mem_filter.mp hr2).2
  rw [hrg] at h4
  exact absurd h4 (Nat.not_le.mpr h)

/-- C1 (amended): in `depmap_damaging` and `depmap_hotspot` the per-gene
frequency for the minimum-count filter is counted across the
**category-filtered** rows, not the full unfiltered table: every gene
whose count among the filtered rows is below `MIN_COUNT_CUTOFF = 4` is
excluded entirely from the output matrix.  Because the filtered count
never exceeds the full-table count, a gene with fewer than 4 occurrences
in the full table (such as the spec's gene with 3 occurrences) is still
excluded. -/
theorem c1_count_filter (mutations : List MutRow) (g : String)
    (hd : countOcc g (damagingRows mutations) < MIN_COUNT_CUTOFF)
    (hh : countOcc g (hotspotRows mutations) < MIN_COUNT_CUTOFF) :
    g ∉ (depmap_damaging mutations).columns ∧
    g ∉ (depmap_hotspot mutations).columns ∧
    (countOcc g mutations < MIN_COUNT_CUTOFF →
      countOcc g (damagingRows mutations) < MIN_COUNT_CUTOFF ∧
      countOcc g (hotspotRows mutations) < MIN_COUNT_CUTOFF) :=
  ⟨notMem_matrix_columns _ g hd, notMem_matrix_columns _ g hh,
    fun hm =>
      ⟨Nat.lt_of_le_of_lt (countOcc_filter_le g _ mutations) hm,
       Nat.lt_of_le_of_lt (countOcc_filter_le g _ mutations) hm⟩⟩

/-- C1 (witness): gene `B` with 3 damaging occurrences (the spec's
`{A: 5, B: 3}` example) appears in no column of either matrix. -/
theorem c1_count_filter_witness :
    "B" ∉ (depmap_damaging mutsB).columns ∧
    "B" ∉ (depmap_hotspot mutsB).columns ∧
    (countOcc "B" mutsB < MIN_COUNT_CUTOFF →
      countOcc "B" (damagingRows mutsB) < MIN_COUNT_CUTOFF ∧
      countOcc "B" (hotspotRows mutsB) < MIN_COUNT_CUTOFF) :=
  c1_count_filter mutsB "B" (by decide) (by decide)

/-- C1 (counterexample): gene `A` occurs 5 times in the full unfiltered
mutation table — at or above the threshold — yet `depmap_damaging` drops
it, because its count is taken after the `damaging` filter where `A`
occurs only 3 times; the spec-worded variant (counting across the full
table) keeps column `A`, so the two transforms disagree on this input. -/
theorem c1_counterexample :
    MIN_COUNT_CUTOFF ≤ countOcc "A" mutsA5 ∧
    countOcc "A" (damagingRows mutsA5) < MIN_COUNT_CUTOFF ∧
    "A" ∈ (depmap_damaging_specCount mutsA5).columns ∧
    "A" ∉ (depmap_damaging mutsA5).columns ∧
    depmap_damaging mutsA5 ≠ depmap_damaging_specCount mutsA5 := by
  decide

/-- C7 (amended): after the frequency filter the rows are deduplicated by
the **concatenated id string** `gene ++ "_" ++ sample` keeping the first
occurrence — not by the (gene, sample) pair — and the pivot is a boolean
matrix whose every cell says whether some deduplicated row carries that
(sample, gene) pair, absent pairs being `False`. When the concatenation
is injective on the filtered rows (e.g. gene symbols without underscore
ambiguity), a cell is `True` exactly when the pair occurs among the
filtered rows, so duplicate (gene, sample) rows collapse to a single
`True` entry. -/
theorem c7_dedup_pivot (mutations : List MutRow) (s g : String)
    (hinj : ∀ r1 ∈ countFiltered (damagingRows mutations),
      ∀ r2 ∈ countFiltered (damagingRows mutations), rowId r1 = rowId r2 →
        r1.Hugo_Symbol = r2.Hugo_Symbol ∧ r1.DepMap_ID = r2.DepMap_ID) :
    ((depmap_damaging mutations).values =
      (depmap_damaging mutations).index.map (fun s' =>
        (depmap_damaging mutations).columns.map (fun g' =>
          mutPresent (dedupBy rowId (countFiltered (damagingRows mutations))) s' g'))) ∧
    (mutPresent (dedupBy rowId (countFiltered (damagingRows mutations))) s g = true ↔
      mutPresent (countFiltered (damagingRows mutations)) s g = true) ∧
    ((depmap_hotspot mutations).values =
      (depmap_hotspot mutations).index.map (fun s' =>
        (depmap_hotspot mutations).columns.map (fun g' =>
          mutPresent (dedupBy rowId (countFiltered (hotspotRows mutations))) s' g'))) := by
  refine ⟨rfl, ?_, rfl⟩
  constructor
  · intro h
    rcases List.any_eq_true.mp h with ⟨r, hr, hp⟩
    exact List.any_eq_true.mpr ⟨r, mem_dedupByAux rowId _ [] r hr, hp⟩
  · intro h
    rcases List.any_eq_true.mp h with ⟨r, hr, hp⟩
    rcases dedupBy_covers rowId _ r hr with ⟨y, hy, hky⟩
    have hy2 : y ∈ countFiltered (damagingRows mutations) :=
      mem_dedupByAux rowId _ [] y hy
    rcases hinj y hy2 r hr hky with ⟨hH, hD⟩
    refine List.any_eq_true.mpr ⟨y, hy, ?_⟩
    rw [hH, hD]
    exact hp

/-- C7 (witness): with `TP53` damaged in four samples and the
(`TP53`, `ACH-1`) row duplicated, the pivot cell equivalence holds — the
duplicate collapses to the single `True` at (`ACH-1`, `TP53`). -/
theorem c7_dedup_pivot_witness :
    (mutPresent (dedupBy rowId (countFiltered (damagingRows mutsDup))) "ACH-1" "TP53" = true ↔
      mutPresent (countFiltered (damagingRows mutsDup)) "ACH-1" "TP53" = true) ∧
    mutPresent (dedupBy rowId (countFiltered (damagingRows mutsDup))) "ACH-1" "TP53" = true :=
  ⟨(c7_dedup_pivot mutsDup "ACH-1" "TP53" (by decide)).2.1, by decide⟩

/-- C7 (counterexample): the distinct pairs `("A_B", "C")` and
`("A", "B_C")` share the concatenated id `"A_B_C"`, so the code's
deduplication drops the `("A", "B_C")` row even though its pair is not a
duplicate: sample `B_C` is missing from the output matrix altogether,
while deduplication by the (gene, sample) pair — as the claim words it —
would keep the row and make the (`B_C`, `A`) cell `True`. -/
theorem c7_counterexample :
    (⟨"A", "B_C", "damaging", "False", "False"⟩ : MutRow) ∈
      countFiltered (damagingRows mutsCollide) ∧
    mutPresent (countFiltered (damagingRows mutsCollide)) "B_C" "A" = true ∧
    "B_C" ∉ (depmap_damaging mutsCollide).index ∧
    mutPresent (dedupBy rowId (countFiltered (damagingRows mutsCollide))) "B_C" "A" = false ∧
    dedupBy rowId (countFiltered (damagingRows mutsCollide)) ≠
      dedupPairs (countFiltered (damagingRows mutsCollide)) ∧
    mutPresent (dedupPairs (countFiltered (damagingRows mutsCollide))) "B_C" "A" = true := by
  decide

end CancerData
